import Mathlib

/-!
Verification of the lastgen proof-resolution and certificate engine.

The definitions below are a shallow embedding of `src/core/types.ts`,
`src/core/proof.ts` and `src/core/verify.ts`.  JavaScript `Date` values are
modelled by the millisecond epoch value that `new Date(s).getTime()` yields:
a date string is carried together with its parse result (`DateStr`), since the
embedding does not re-implement the ISO-8601 parser itself.  `NaN` and
`Infinity` are represented explicitly so that JavaScript comparison semantics
(`NaN < x` is false, `x < Infinity` is true for finite `x`) are preserved.
-/

namespace Lastgen

/-- A JavaScript number as used for time arithmetic: either `NaN`, `Infinity`,
or a finite (integral) value.  `nan` is what `new Date(s).getTime()` returns
for an unparseable string; `inf` models the literal `Infinity` used by
`resolveProofDate` for a missing `repoCreatedAt`. -/
inductive JSNum where
  | nan
  | inf
  | fin (ms : Int)
deriving DecidableEq

/-- JavaScript `a < b` on numbers: false whenever an operand is `NaN`;
a finite value is below `Infinity`. -/
def jsLt : JSNum → JSNum → Bool
  | .fin a, .fin b => a < b
  | .fin _, .inf => true
  | _, _ => false

/-- JavaScript `(a - b) > c` for a finite bound `c`: false whenever an operand
is `NaN`, and `Infinity - Infinity` is `NaN`. -/
def jsSubGt (a b : JSNum) (c : Int) : Bool :=
  match a, b with
  | .fin a, .fin b => a - b > c
  | .inf, .fin _ => true
  | _, _ => false

/-- JavaScript `Math.abs(a - b) < c` for a finite bound `c`: false whenever an
operand is `NaN` or the difference is infinite. -/
def jsAbsSubLt (a b : JSNum) (c : Int) : Bool :=
  match a, b with
  | .fin a, .fin b => |a - b| < c
  | _, _ => false

/-- JavaScript `Math.abs(a - b)` on time values. -/
def jsAbsSub : JSNum → JSNum → JSNum
  | .fin a, .fin b => .fin |a - b|
  | .inf, .fin _ => .inf
  | .fin _, .inf => .inf
  | _, _ => .nan

/-- JavaScript `a <= c` for a finite bound `c`: false for `NaN` and `Infinity`. -/
def jsLeInt (a : JSNum) (c : Int) : Bool :=
  match a with
  | .fin a => a ≤ c
  | _ => false

/-- The string JavaScript produces for a number in template interpolation
(integral values only, which is all this code ever prints). -/
def jsNumStr : JSNum → String
  | .nan => "NaN"
  | .inf => "Infinity"
  | .fin v => toString v

/-- An ISO-8601 date string paired with its JavaScript parse
`new Date(raw).getTime()`.  The parse is carried as data because the embedding
does not model the `Date` parser; theorems that need a parseable date assume
`time = .fin t`. -/
structure DateStr where
  raw : String
  time : JSNum
deriving DecidableEq

/-- `CUTOFF_DATE = 2025-02-21T00:00:00Z` from `src/core/types.ts`; its
JavaScript parse is epoch millisecond `1740096000000`. -/
def CUTOFF_DATE : DateStr := ⟨"2025-02-21T00:00:00Z", .fin 1740096000000⟩

/-- `CERTIFICATE_VERSION = 1.0` from `src/core/types.ts`. -/
def CERTIFICATE_VERSION : String := "1.0"

/-- `CERTIFICATE_SALT = lastgen_v1` from `src/core/types.ts`. -/
def CERTIFICATE_SALT : String := "lastgen_v1"

/-- `THIRTY_DAYS_MS = 30 * 24 * 60 * 60 * 1000` from `src/core/types.ts`. -/
def THIRTY_DAYS_MS : Int := 30 * 24 * 60 * 60 * 1000

/-- The `EraKey` enumeration (`keyof typeof ERAS`). -/
inductive EraKey where
  | LAST_GEN
  | AI_NATIVE
deriving DecidableEq

/-- The string value of an `EraKey` as it appears in JSON and templates. -/
def EraKey.str : EraKey → String
  | .LAST_GEN => "LAST_GEN"
  | .AI_NATIVE => "AI_NATIVE"

/-- `GitHubUser` from `src/core/types.ts` (dates carried with their parses). -/
structure GitHubUser where
  login : String
  id : Int
  name : Option String
  createdAt : DateStr
deriving DecidableEq

/-- `FirstCommit` from `src/core/types.ts`.  `date` is the author date;
optional fields model `string | undefined`. -/
structure FirstCommit where
  date : DateStr
  repo : String
  sha : String
  message : String
  repoCreatedAt : Option DateStr
  committerDate : Option DateStr
deriving DecidableEq

/-- `classifyEra` from `src/core/proof.ts`:
`date < cutoff ? LAST_GEN : AI_NATIVE`. -/
def classifyEra (proofDate : DateStr) : EraKey :=
  if jsLt proofDate.time CUTOFF_DATE.time then .LAST_GEN else .AI_NATIVE

/-- `getEffectiveCommitDate` from `src/core/proof.ts`.  The JavaScript
truthiness test `!commit.committerDate` is false for `undefined` and for the
empty string. -/
def getEffectiveCommitDate (commit : FirstCommit) : DateStr :=
  match commit.committerDate with
  | none => commit.date
  | some cd =>
    if cd.raw = "" then commit.date
    else if jsSubGt cd.time commit.date.time THIRTY_DAYS_MS then cd
    else commit.date

/-- `resolveProofDate` from `src/core/proof.ts`.  `now` stands for
`new Date().toISOString()` (the value returned when there is no commit);
`repoTime` is `Infinity` when `repoCreatedAt` is absent or empty (JavaScript
truthiness), and the `??` fallback keeps an empty string but replaces
`undefined`. -/
def resolveProofDate (now : DateStr) (user : GitHubUser)
    (firstCommit : Option FirstCommit) : DateStr :=
  match firstCommit with
  | none => now
  | some fc =>
    let effectiveDate := getEffectiveCommitDate fc
    let commitTime := effectiveDate.time
    let accountTime := user.createdAt.time
    let repoTime : JSNum :=
      match fc.repoCreatedAt with
      | some r => if r.raw = "" then .inf else r.time
      | none => .inf
    if jsLt commitTime repoTime then fc.repoCreatedAt.getD user.createdAt
    else if jsLt commitTime accountTime then effectiveDate
    else user.createdAt

/-! ### String helpers mirroring the JavaScript runtime functions used -/

/-- ASCII lower-casing, the behaviour of `toLowerCase()` on the ASCII
identifiers this code handles. -/
def jsToLower (s : String) : String := String.mk (s.data.map Char.toLower)

/-- ASCII upper-casing (`toUpperCase()`). -/
def jsToUpper (s : String) : String := String.mk (s.data.map Char.toUpper)

/-- JavaScript `s.slice(a, b)` for non-negative indices. -/
def strSlice (s : String) (a b : Nat) : String :=
  String.mk ((s.data.drop a).take (b - a))

/-- JavaScript `s.padStart(n, c)`. -/
def padStart (s : String) (n : Nat) (c : Char) : String :=
  if n ≤ s.length then s else String.mk (List.replicate (n - s.length) c) ++ s

/-- One character of JSON string escaping as `JSON.stringify` performs it:
`"` and `\` are escaped, control characters use the short escapes or
`\u00XX`. -/
def jsonEscapeChar (c : Char) : String :=
  if c.toNat = 34 then "\\\""
  else if c.toNat = 92 then "\\\\"
  else if c = '\x08' then "\\b"
  else if c = '\t' then "\\t"
  else if c = '\n' then "\\n"
  else if c = '\x0c' then "\\f"
  else if c = '\r' then "\\r"
  else if c.toNat < 32 then
    "\\u00" ++ String.mk [(Nat.digitChar (c.toNat / 16)), (Nat.digitChar (c.toNat % 16))]
  else String.singleton c

/-- `JSON.stringify` applied to a string value. -/
def jsonQuote (s : String) : String :=
  "\"" ++ String.join (s.data.map jsonEscapeChar) ++ "\""

/-- Value of a hexadecimal digit character, if it is one. -/
def hexVal (c : Char) : Option Nat :=
  if '0' ≤ c ∧ c ≤ '9' then some (c.toNat - 48)
  else if 'a' ≤ c ∧ c ≤ 'f' then some (c.toNat - 97 + 10)
  else if 'A' ≤ c ∧ c ≤ 'F' then some (c.toNat - 65 + 10)
  else none

/-- Accumulate the longest leading run of hexadecimal digits; `none` when no
digit was consumed. -/
def parseHexDigits : List Char → Option Nat → Option Nat
  | [], acc => acc
  | c :: cs, acc =>
    match hexVal c with
    | some v => parseHexDigits cs (some ((acc.getD 0) * 16 + v))
    | none => acc

/-- JavaScript `parseInt(s, 16)`: skip leading whitespace, optional sign,
optional `0x`/`0X`, then the longest hexadecimal-digit run; `NaN` when no
digit is found. -/
def parseIntHex (s : String) : JSNum :=
  let cs := s.data.dropWhile (fun c => c.isWhitespace)
  let signed : Bool × List Char :=
    match cs with
    | '-' :: rest => (true, rest)
    | '+' :: rest => (false, rest)
    | _ => (false, cs)
  let body : List Char :=
    match signed.2 with
    | '0' :: 'x' :: rest => rest
    | '0' :: 'X' :: rest => rest
    | _ => signed.2
  match parseHexDigits body none with
  | none => .nan
  | some v => .fin (if signed.1 then -(v : Int) else (v : Int))

/-- JavaScript `a % m` (remainder, sign taken from the dividend), with `NaN`
propagation. -/
def jsMod (a : JSNum) (m : Int) : JSNum :=
  match a with
  | .fin v => .fin (Int.tmod v m)
  | _ => .nan

/-- First-occurrence string replacement on character lists, the semantics of
JavaScript `String.prototype.replace` with a plain-string pattern. -/
def replaceFirstL (s pat repl : List Char) : List Char :=
  match s with
  | [] => if pat.isEmpty then repl else []
  | c :: rest =>
    if pat.isPrefixOf (c :: rest) then repl ++ (c :: rest).drop pat.length
    else c :: replaceFirstL rest pat repl

/-- JavaScript `s.replace(pat, repl)` for a plain-string pattern (first
occurrence only). -/
def replaceFirst (s pat repl : String) : String :=
  String.mk (replaceFirstL s.data pat.data repl.data)

/-! ### Certificate hashing and construction (`src/core/proof.ts`) -/

/-- The injected hash function (`HashFn` in `src/core/types.ts`): SHA-256 is
supplied by the platform and is opaque to the core, so the embedding keeps it
abstract. -/
def HashFn : Type := String → String

/-- The exact `JSON.stringify` payload hashed by `generateCertificateHash`:
field order `username, githubId, proofDate, era, salt`. -/
def certPayload (username : String) (githubId : Int) (proofDate : String)
    (era : EraKey) : String :=
  "\x7b\"username\":" ++ jsonQuote username ++
  ",\"githubId\":" ++ toString githubId ++
  ",\"proofDate\":" ++ jsonQuote proofDate ++
  ",\"era\":" ++ jsonQuote era.str ++
  ",\"salt\":" ++ jsonQuote CERTIFICATE_SALT ++ "\x7d"

/-- `generateCertificateHash` from `src/core/proof.ts`. -/
def generateCertificateHash (hashFn : HashFn) (username : String)
    (githubId : Int) (proofDate : String) (era : EraKey) : String :=
  hashFn (certPayload username githubId proofDate era)

/-- `generateCertificateNumber` from `src/core/proof.ts`. -/
def generateCertificateNumber (hash : String) : String :=
  let upperPart := jsToUpper (strSlice hash 0 4)
  let numericPart := jsMod (parseIntHex (strSlice hash 4 12)) 1000000
  let padded := padStart (jsNumStr numericPart) 6 '0'
  "LGC-" ++ upperPart ++ "-" ++ padded

/-- `CertificateIdentity` from `src/core/types.ts`. -/
structure CertificateIdentity where
  username : String
  githubId : Int
  name : Option String
deriving DecidableEq

/-- `CertificateProof` from `src/core/types.ts`. -/
structure CertificateProof where
  accountCreated : DateStr
  firstCommit : FirstCommit
  proofDate : DateStr
deriving DecidableEq

/-- `CertificateVerification` from `src/core/types.ts`. -/
structure CertificateVerification where
  hash : String
  salt : String
deriving DecidableEq

/-- `Certificate` from `src/core/types.ts` (`type` is the constant literal
`LASTGEN_CERTIFICATE`). -/
structure Certificate where
  version : String
  type : String
  identity : CertificateIdentity
  proof : CertificateProof
  era : EraKey
  verification : CertificateVerification
  certificateNumber : String
  issuedAt : DateStr
deriving DecidableEq

/-- `createCertificate` from `src/core/proof.ts`.  `now` models the current
instant (`new Date()`), used both by `resolveProofDate` when no commit exists
and for `issuedAt`. -/
def createCertificate (hashFn : HashFn) (now : DateStr) (user : GitHubUser)
    (firstCommit : Option FirstCommit) : Certificate :=
  let proofDate := resolveProofDate now user firstCommit
  let era := classifyEra proofDate
  let hash := generateCertificateHash hashFn user.login user.id proofDate.raw era
  let certificateNumber := generateCertificateNumber hash
  { version := CERTIFICATE_VERSION
    type := "LASTGEN_CERTIFICATE"
    identity := { username := user.login, githubId := user.id, name := user.name }
    proof :=
      { accountCreated := user.createdAt
        firstCommit := firstCommit.getD
          { date := user.createdAt
            repo := ""
            sha := ""
            message := "(no public commits found - using account creation date)"
            repoCreatedAt := none
            committerDate := none }
        proofDate := proofDate }
    era := era
    verification := { hash := "sha256:" ++ hash, salt := CERTIFICATE_SALT }
    certificateNumber := certificateNumber
    issuedAt := now }

/-! ### Certificate verification (`src/core/verify.ts`) -/

/-- `CommitDetail` from `src/core/types.ts`: the live record returned by the
Data Source for a commit. -/
structure CommitDetail where
  sha : String
  authorLogin : Option String
  committerLogin : Option String
  authorEmail : Option String
  authorDate : Option DateStr
  committerDate : Option DateStr
  authorId : Option Int
  verificationReason : Option String
  isRootCommit : Bool
  message : String
  verified : Bool
deriving DecidableEq

/-- `VerifyResult` from `src/core/types.ts`. -/
structure VerifyResult where
  check : String
  passed : Bool
  detail : String
deriving DecidableEq

/-- The result record of `verifyCertificateData`. -/
structure VerifyCertificateResult where
  valid : Bool
  results : List VerifyResult
  certificateNumber : String
  username : String
deriving DecidableEq

/-- Whether a character list is a non-empty digit run followed by `+`, the
shape of the optional group `(\d+\+)` in the noreply-email pattern. -/
def isDigitsPlus (cs : List Char) : Bool :=
  cs.getLast? == some '+' && !cs.dropLast.isEmpty && cs.dropLast.all (fun c => c.isDigit)

/-- `matchesNoreplyEmail` from `src/core/verify.ts`: the anchored regular
expression `(\d+\+)?user@users\.noreply\.github\.com` (whole-string match,
username inserted literally via `escapeRegex`) applied to the lower-cased
email.  Because the pattern is anchored and its tail has fixed length, a match
decomposes uniquely as an optional `digits+` group followed by the literal
tail, which is what is tested here. -/
def matchesNoreplyEmail (email username : String) : Bool :=
  let lower := (jsToLower email).data
  let tailPart := (jsToLower username).data ++ "@users.noreply.github.com".data
  if lower = tailPart then true
  else if tailPart.isSuffixOf lower then
    isDigitsPlus (lower.take (lower.length - tailPart.length))
  else false

/-- JavaScript template interpolation of a `string | null` value. -/
def optDisplay (o : Option String) : String := o.getD "null"

/-- JavaScript template interpolation of an optional date string. -/
def optDateDisplay (o : Option DateStr) : String :=
  match o with
  | some d => d.raw
  | none => "null"

/-- JavaScript truthiness of a `string | undefined | null` date field:
falsy exactly for absent and empty strings. -/
def dateTruthy : Option DateStr → Bool
  | none => false
  | some d => d.raw ≠ ""

/-- `new Date(commitDetail.authorDate ?? empty).getTime()`: the parse of an
absent date defaults to the empty string, which parses to `NaN`. -/
def optDateTime : Option DateStr → JSNum
  | some d => d.time
  | none => .nan

/-- `Math.round(driftMs / (24 * 60 * 60 * 1000))` rendered for the
date-consistency detail string (drift is non-negative, so rounding half-up
equals this integer division). -/
def jsRoundDays : JSNum → String
  | .fin v => toString ((v + 43200000) / 86400000)
  | .inf => "Infinity"
  | .nan => "NaN"

/-- The hash recomputed by the Verifier from the stored
fields of the certificate itself (`src/core/verify.ts`, lines 51-57). -/
def certExpectedHash (hashFn : HashFn) (cert : Certificate) : String :=
  generateCertificateHash hashFn cert.identity.username cert.identity.githubId
    cert.proof.proofDate.raw cert.era

/-- Check 1, `Hash integrity` (`src/core/verify.ts`, lines 51-67). -/
def hashCheck (hashFn : HashFn) (cert : Certificate) : VerifyResult :=
  let expectedHash := certExpectedHash hashFn cert
  let actualHash := replaceFirst cert.verification.hash "sha256:" ""
  { check := "Hash integrity"
    passed := expectedHash == actualHash
    detail :=
      if expectedHash == actualHash then "Certificate hash is valid"
      else "Certificate hash does not match - data may have been tampered with" }

/-- Check 2, `Era classification` (`src/core/verify.ts`, lines 69-80). -/
def eraCheck (cert : Certificate) : VerifyResult :=
  let isBeforeCutoff := jsLt cert.proof.proofDate.time CUTOFF_DATE.time
  let expectedEra : EraKey := if isBeforeCutoff then .LAST_GEN else .AI_NATIVE
  { check := "Era classification"
    passed := cert.era == expectedEra
    detail :=
      if cert.era == expectedEra then
        "Era " ++ cert.era.str ++ " is correct for proof date " ++ cert.proof.proofDate.raw
      else "Era should be " ++ expectedEra.str ++ " but certificate claims " ++ cert.era.str }

/-- Check 3, `Proof date` (`src/core/verify.ts`, lines 82-100): re-run the
resolver on a user reconstructed from the certificate, with the stored first
commit when its `sha` is truthy and `null` otherwise, and compare within 60
seconds. -/
def proofDateCheck (now : DateStr) (cert : Certificate) : VerifyResult :=
  let reconstructedUser : GitHubUser :=
    { login := cert.identity.username
      id := cert.identity.githubId
      name := cert.identity.name
      createdAt := cert.proof.accountCreated }
  let expectedProofDate := resolveProofDate now reconstructedUser
    (if cert.proof.firstCommit.sha = "" then none else some cert.proof.firstCommit)
  let proofDateMatch := jsAbsSubLt expectedProofDate.time cert.proof.proofDate.time 60000
  { check := "Proof date"
    passed := proofDateMatch
    detail :=
      if proofDateMatch then
        "Proof date " ++ cert.proof.proofDate.raw ++ " is consistent with commit and account data"
      else "Proof date should be " ++ expectedProofDate.raw ++ " but certificate claims " ++
        cert.proof.proofDate.raw }

/-- Checks 1-3, pushed unconditionally before the commit fetch. -/
def baseChecks (hashFn : HashFn) (now : DateStr) (cert : Certificate) : List VerifyResult :=
  [hashCheck hashFn cert, eraCheck cert, proofDateCheck now cert]

/-- The sub-checks run on a successfully fetched live commit
(`src/core/verify.ts`, lines 110-194). -/
def commitChecks (cert : Certificate) (commitDetail : CommitDetail) : List VerifyResult :=
  let username := jsToLower cert.identity.username
  let authorMatch := jsToLower (commitDetail.authorLogin.getD "") == username
  let committerMatch := jsToLower (commitDetail.committerLogin.getD "") == username
  let emailMatch :=
    match commitDetail.authorEmail with
    | some e => if e = "" then false else matchesNoreplyEmail e cert.identity.username
    | none => false
  let identityMatch := authorMatch || committerMatch || emailMatch
  let matchMethods :=
    (if authorMatch then ["author login"] else []) ++
    (if committerMatch then ["committer login"] else []) ++
    (if emailMatch then ["noreply email"] else [])
  let repoOwner := ((cert.proof.firstCommit.repo.splitOn "/").headD "")
  let isSelfOwned := jsToLower repoOwner == jsToLower cert.identity.username
  let commitDate := optDateTime commitDetail.authorDate
  let certDate := cert.proof.firstCommit.date.time
  let datesClose := jsAbsSubLt commitDate certDate 60000
  [{ check := "Identity"
     passed := identityMatch
     detail :=
       if identityMatch then "Matched via: " ++ String.intercalate ", " matchMethods
       else "Commit author (" ++ optDisplay commitDetail.authorLogin ++
         ") does not match " ++ cert.identity.username },
   { check := "Repo ownership"
     passed := true
     detail :=
       if isSelfOwned then "Commit is in a repo owned by " ++ cert.identity.username
       else "Commit is in a third-party repo (" ++ cert.proof.firstCommit.repo ++ ")" }] ++
  (match commitDetail.authorId with
   | some authorId =>
     [{ check := "GitHub ID"
        passed := authorId == cert.identity.githubId
        detail :=
          if authorId == cert.identity.githubId then
            "GitHub ID " ++ toString authorId ++ " matches certificate"
          else "Commit author ID " ++ toString authorId ++
            " does not match certificate ID " ++ toString cert.identity.githubId }]
   | none => []) ++
  [{ check := "Commit date"
     passed := datesClose
     detail :=
       if datesClose then
         "Commit date matches certificate (" ++ optDateDisplay commitDetail.authorDate ++ ")"
       else "Commit date " ++ optDateDisplay commitDetail.authorDate ++
         " differs from certificate " ++ cert.proof.firstCommit.date.raw }] ++
  (match commitDetail.authorDate, commitDetail.committerDate with
   | some ad, some cdd =>
     if ad.raw = "" || cdd.raw = "" then []
     else
       let driftMs := jsAbsSub cdd.time ad.time
       let driftDays := jsRoundDays driftMs
       let consistent := jsLeInt driftMs THIRTY_DAYS_MS
       [{ check := "Date consistency"
          passed := consistent
          detail :=
            if consistent then
              "Author/committer date drift: " ++ driftDays ++ "d (within 30d threshold)"
            else "Author/committer date drift: " ++ driftDays ++
              "d exceeds 30d - author date may be forged" }]
   | _, _ => []) ++
  (if commitDetail.isRootCommit then
    [{ check := "Root commit"
       passed := true
       detail := "Commit has no parents (first commit in repo - higher trust)" }]
   else []) ++
  (if commitDetail.verified then
    [{ check := "GPG signature"
       passed := true
       detail := "Commit is GPG-signed" ++
         (match commitDetail.verificationReason with
          | some reason => if reason = "" || reason = "valid" then "" else " (" ++ reason ++ ")"
          | none => "") }]
   else [])

/-- The single failing check recorded when the live commit fetch throws
(`src/core/verify.ts`, lines 195-202). -/
def commitFetchFailure (message : String) : VerifyResult :=
  { check := "Commit verification"
    passed := false
    detail := "Could not fetch commit from GitHub: " ++ message }

/-- `verifyCertificateData` from `src/core/verify.ts`.  `fetchResult` models
the outcome of the awaited `fetchCommit` Data Source call when one is
attempted: `.ok` is a successful fetch, `.error` carries the thrown message
(the `try`/`catch` of the source corresponds to the `match`).  The fetch is
attempted only when `cert.proof.firstCommit.sha` is truthy (non-empty). -/
def verifyCertificateData (hashFn : HashFn) (now : DateStr)
    (fetchResult : Except String CommitDetail) (cert : Certificate) :
    VerifyCertificateResult :=
  let results := baseChecks hashFn now cert ++
    (if cert.proof.firstCommit.sha = "" then []
     else
       match fetchResult with
       | .ok commitDetail => commitChecks cert commitDetail
       | .error e => [commitFetchFailure e])
  { valid := results.all (fun r => r.passed)
    results := results
    certificateNumber := cert.certificateNumber
    username := cert.identity.username }

/-! ### Dynamic JavaScript values

`isValidCertificate` receives `unknown` data (parsed JSON) and only checks a
shallow shape, so reasoning about it needs a model of untyped JavaScript
values and of property access, which throws a `TypeError` on `null` and
`undefined` bases.  The model covers the JSON value universe plus `undefined`
(the result of a missing-property read). -/

/-- An untyped JavaScript value as produced by `JSON.parse`, plus
`undefined`. -/
inductive JSVal where
  | vnull
  | vundefined
  | vbool (b : Bool)
  | vnum (n : JSNum)
  | vstr (s : String)
  | vobj (fields : List (String × JSVal))
  | varr (elems : List JSVal)

/-- JavaScript `typeof`; note `typeof null` is the string `object`. -/
def jsTypeof : JSVal → String
  | .vnull => "object"
  | .vundefined => "undefined"
  | .vbool _ => "boolean"
  | .vnum _ => "number"
  | .vstr _ => "string"
  | .vobj _ => "object"
  | .varr _ => "object"

/-- Whether the value is `null`. -/
def isNull : JSVal → Bool
  | .vnull => true
  | _ => false

/-- Last binding of a key in the field list of an object (later assignments win, as
in JavaScript objects and `JSON.parse`). -/
def lookupField : List (String × JSVal) → String → Option JSVal
  | [], _ => none
  | (k, v) :: rest, key =>
    match lookupField rest key with
    | some r => some r
    | none => if k == key then some v else none

/-- Non-throwing property read: a missing property of an object, or a named
property of a primitive, is `undefined`. -/
def jsIndex : JSVal → String → JSVal
  | .vobj fields, key => (lookupField fields key).getD .vundefined
  | _, _ => .vundefined

/-- Property read `base.prop`, which throws a `TypeError` when the base is
`null` or `undefined` (the model renders the message without the V8 quoting of
the property name). -/
def jsGet : JSVal → String → Except String JSVal
  | .vnull, p => .error ("TypeError: Cannot read properties of null (reading " ++ p ++ ")")
  | .vundefined, p => .error ("TypeError: Cannot read properties of undefined (reading " ++ p ++ ")")
  | v, p => .ok (jsIndex v p)

/-- JavaScript truthiness. -/
def jsTruthy : JSVal → Bool
  | .vnull => false
  | .vundefined => false
  | .vbool b => b
  | .vnum .nan => false
  | .vnum (.fin v) => v ≠ 0
  | .vnum .inf => true
  | .vstr s => s ≠ ""
  | .vobj _ => true
  | .varr _ => true

/-- Strict equality `v === s` against a string literal. -/
def isStrVal (v : JSVal) (s : String) : Bool :=
  match v with
  | .vstr t => t == s
  | _ => false

/-- `isValidCertificate` from `src/core/verify.ts`, over untyped data.  The
guard (`typeof` of data must be `object`, data must not be `null`) admits arrays, and the
`typeof` tests on the sub-fields admit `null` there (the `typeof null`
quirk). -/
def isValidCertificate (data : JSVal) : Bool :=
  if jsTypeof data != "object" || isNull data then false
  else
    isStrVal (jsIndex data "type") "LASTGEN_CERTIFICATE" &&
    jsTypeof (jsIndex data "version") == "string" &&
    jsTypeof (jsIndex data "identity") == "object" &&
    jsTypeof (jsIndex data "proof") == "object" &&
    jsTypeof (jsIndex data "verification") == "object" &&
    jsTypeof (jsIndex data "certificateNumber") == "string"

mutual

/-- `JSON.stringify` on an untyped value: `none` is an omitted value
(`undefined`); `NaN` and `Infinity` serialize as `null`. -/
def dynStringify : JSVal → Option String
  | .vundefined => none
  | .vnull => some "null"
  | .vbool b => some (cond b "true" "false")
  | .vnum (.fin v) => some (toString v)
  | .vnum _ => some "null"
  | .vstr s => some (jsonQuote s)
  | .vobj fs => some ("\x7b" ++ String.intercalate "," (dynStringifyFields fs) ++ "\x7d")
  | .varr es => some ("[" ++ String.intercalate "," (dynStringifyElems es) ++ "]")

/-- Serialized `key:value` entries of an object, skipping `undefined`
values. -/
def dynStringifyFields : List (String × JSVal) → List String
  | [] => []
  | (k, v) :: rest =>
    match dynStringify v with
    | none => dynStringifyFields rest
    | some s => (jsonQuote k ++ ":" ++ s) :: dynStringifyFields rest

/-- Serialized array elements; `undefined` elements become `null`. -/
def dynStringifyElems : List JSVal → List String
  | [] => []
  | v :: rest => ((dynStringify v).getD "null") :: dynStringifyElems rest

end

mutual

/-- JavaScript `String(v)` / template interpolation of an untyped value. -/
def jsToStr : JSVal → String
  | .vnull => "null"
  | .vundefined => "undefined"
  | .vbool b => cond b "true" "false"
  | .vnum n => jsNumStr n
  | .vstr s => s
  | .vobj _ => "[object Object]"
  | .varr es => String.intercalate "," (jsToStrElems es)

/-- Array elements under `toString`: `null` and `undefined` become empty. -/
def jsToStrElems : List JSVal → List String
  | [] => []
  | v :: rest =>
    (match v with
     | .vnull => ""
     | .vundefined => ""
     | w => jsToStr w) :: jsToStrElems rest

end

/-- `new Date(v).getTime()` on an untyped value, given the string parser
`parse`: strings are parsed, numbers are epoch values (invalid beyond the
±8.64e15 range), `null` is epoch 0, `true`/`false` are 1/0, and objects and
arrays go through their string conversion. -/
def dynDateTime (parse : String → JSNum) : JSVal → JSNum
  | .vstr s => parse s
  | .vnum (.fin v) => if v.natAbs ≤ 8640000000000000 then .fin v else .nan
  | .vnum _ => .nan
  | .vnull => .fin 0
  | .vundefined => .nan
  | .vbool b => .fin (cond b 1 0)
  | .vobj fs => parse (jsToStr (.vobj fs))
  | .varr es => parse (jsToStr (.varr es))

/-- The method call `v.replace(pat, repl)`: defined on strings, a `TypeError`
on anything else (`null`/`undefined` fail at the property read, other values
fail at the call). -/
def jsCallReplace (v : JSVal) (pat repl : String) : Except String String :=
  match v with
  | .vstr s => .ok (replaceFirst s pat repl)
  | .vnull => .error "TypeError: Cannot read properties of null (reading replace)"
  | .vundefined => .error "TypeError: Cannot read properties of undefined (reading replace)"
  | _ => .error "TypeError: value.replace is not a function"

/-- `getEffectiveCommitDate` over untyped data (property reads may throw). -/
def getEffectiveCommitDateDyn (parse : String → JSNum) (commit : JSVal) :
    Except String JSVal := do
  let committerDate ← jsGet commit "committerDate"
  if !(jsTruthy committerDate) then
    jsGet commit "date"
  else do
    let dateV ← jsGet commit "date"
    let authorTime := dynDateTime parse dateV
    let committerTime := dynDateTime parse committerDate
    if jsSubGt committerTime authorTime THIRTY_DAYS_MS then return committerDate
    else return dateV

/-- `resolveProofDate` over untyped data; `now` is the ISO string of the current instant. -/
def resolveProofDateDyn (parse : String → JSNum) (now : String) (user : JSVal)
    (firstCommit : Option JSVal) : Except String JSVal := do
  match firstCommit with
  | none => return .vstr now
  | some fc =>
    let effectiveDate ← getEffectiveCommitDateDyn parse fc
    let commitTime := dynDateTime parse effectiveDate
    let createdAt ← jsGet user "createdAt"
    let accountTime := dynDateTime parse createdAt
    let repoCreatedAt ← jsGet fc "repoCreatedAt"
    let repoTime := if jsTruthy repoCreatedAt then dynDateTime parse repoCreatedAt else .inf
    if jsLt commitTime repoTime then
      match repoCreatedAt with
      | .vnull => return createdAt
      | .vundefined => return createdAt
      | v => return v
    else if jsLt commitTime accountTime then return effectiveDate
    else return createdAt

/-- Checks 1-3 of `verifyCertificateData` executed over untyped certificate
data, with every property read modelled explicitly (in source order).  This
is exactly the portion of the function outside the `try`/`catch`: every
statement from line 49 to the `sha` test of line 102; everything later sits inside
the `try` whose `catch` converts any throw into the single failing
`Commit verification` check, so this prefix is the only part of
`verifyCertificateData` that can throw. -/
def verifyChecks123Dyn (parse : String → JSNum) (hashFn : HashFn) (now : String)
    (cert : JSVal) : Except String (List VerifyResult) := do
  let identity ← jsGet cert "identity"
  let username ← jsGet identity "username"
  let githubId ← jsGet identity "githubId"
  let proof ← jsGet cert "proof"
  let proofDateV ← jsGet proof "proofDate"
  let eraV ← jsGet cert "era"
  let expectedHash := hashFn ((dynStringify (.vobj
      [("username", username), ("githubId", githubId), ("proofDate", proofDateV),
       ("era", eraV), ("salt", .vstr CERTIFICATE_SALT)])).getD "")
  let verification ← jsGet cert "verification"
  let hashV ← jsGet verification "hash"
  let actualHash ← jsCallReplace hashV "sha256:" ""
  let check1 : VerifyResult :=
    { check := "Hash integrity"
      passed := expectedHash == actualHash
      detail :=
        if expectedHash == actualHash then "Certificate hash is valid"
        else "Certificate hash does not match - data may have been tampered with" }
  let proofDateT := dynDateTime parse proofDateV
  let expectedEra := if jsLt proofDateT (parse CUTOFF_DATE.raw) then "LAST_GEN" else "AI_NATIVE"
  let check2 : VerifyResult :=
    { check := "Era classification"
      passed := isStrVal eraV expectedEra
      detail :=
        if isStrVal eraV expectedEra then
          "Era " ++ jsToStr eraV ++ " is correct for proof date " ++ jsToStr proofDateV
        else "Era should be " ++ expectedEra ++ " but certificate claims " ++ jsToStr eraV }
  let nameV ← jsGet identity "name"
  let accountCreatedV ← jsGet proof "accountCreated"
  let reconstructedUser : JSVal := .vobj
    [("login", username), ("id", githubId), ("name", nameV), ("createdAt", accountCreatedV)]
  let firstCommitV ← jsGet proof "firstCommit"
  let shaV ← jsGet firstCommitV "sha"
  let expectedProofDate ← resolveProofDateDyn parse now reconstructedUser
    (if jsTruthy shaV then some firstCommitV else none)
  let proofDateMatch := jsAbsSubLt (dynDateTime parse expectedProofDate) proofDateT 60000
  let check3 : VerifyResult :=
    { check := "Proof date"
      passed := proofDateMatch
      detail :=
        if proofDateMatch then
          "Proof date " ++ jsToStr proofDateV ++ " is consistent with commit and account data"
        else "Proof date should be " ++ jsToStr expectedProofDate ++
          " but certificate claims " ++ jsToStr proofDateV }
  return [check1, check2, check3]

/-! ### Concrete sample inputs used by witnesses and counterexamples -/

/-- A fixed "current instant" for issuance (epoch of 2026-01-01T00:00:00Z). -/
def sampleNow : DateStr := ⟨"2026-01-01T00:00:00Z", .fin 1767225600000⟩

/-- A sample user whose account was created on 2020-01-01. -/
def sampleUser : GitHubUser :=
  { login := "alice", id := 1, name := none
    createdAt := ⟨"2020-01-01T00:00:00Z", .fin 1577836800000⟩ }

/-- Repository creation date 2019-01-01. -/
def sampleRepoDate : DateStr := ⟨"2019-01-01T00:00:00Z", .fin 1546300800000⟩

/-- First commit authored 2019-06-01 in a repo created 2019-01-01 (the
resolver example of the specification). -/
def sampleCommitWithRepo : FirstCommit :=
  { date := ⟨"2019-06-01T00:00:00Z", .fin 1559347200000⟩
    repo := "alice/proj", sha := "abc123", message := "init"
    repoCreatedAt := some sampleRepoDate, committerDate := none }

/-- The same first commit with the repository creation date unknown. -/
def sampleCommitNoRepo : FirstCommit :=
  { date := ⟨"2019-06-01T00:00:00Z", .fin 1559347200000⟩
    repo := "alice/proj", sha := "abc123", message := "init"
    repoCreatedAt := none, committerDate := none }

/-- Committer date 2024-06-01 for the forgery-drift example. -/
def sampleDriftCommitter : DateStr := ⟨"2024-06-01T00:00:00Z", .fin 1717200000000⟩

/-- The forgery case of the specification: author date 2015-01-01, committer date
2024-06-01 (drift far beyond 30 days). -/
def sampleCommitDrift : FirstCommit :=
  { date := ⟨"2015-01-01T00:00:00Z", .fin 1420070400000⟩
    repo := "alice/old", sha := "def456", message := "old"
    repoCreatedAt := none, committerDate := some sampleDriftCommitter }

/-- A certificate issued with no public commit (synthetic placeholder commit,
empty `sha`); the identity hash function stands in for SHA-256. -/
def certEmptySha : Certificate := createCertificate (fun s => s) sampleNow sampleUser none

/-- A certificate issued from `sampleCommitWithRepo` (non-empty `sha`). -/
def certWithSha : Certificate :=
  createCertificate (fun s => s) sampleNow sampleUser (some sampleCommitWithRepo)

/-- A live commit record matching `sampleCommitWithRepo`. -/
def sampleDetail : CommitDetail :=
  { sha := "abc123", authorLogin := some "alice", committerLogin := none
    authorEmail := none
    authorDate := some ⟨"2019-06-01T00:00:00Z", .fin 1559347200000⟩
    committerDate := none, authorId := some 1, verificationReason := none
    isRootCommit := true, message := "init", verified := false }

/-- A certificate agreeing with `certB` on the four hashed fields. -/
def certA : Certificate :=
  { version := "1.0", type := "LASTGEN_CERTIFICATE"
    identity := { username := "alice", githubId := 1, name := none }
    proof :=
      { accountCreated := ⟨"2020-01-01T00:00:00Z", .fin 1577836800000⟩
        firstCommit := sampleCommitWithRepo
        proofDate := ⟨"2019-06-01T00:00:00Z", .fin 1559347200000⟩ }
    era := .LAST_GEN
    verification := { hash := "sha256:aaa", salt := "lastgen_v1" }
    certificateNumber := "LGC-AAAA-000001"
    issuedAt := ⟨"2026-01-01T00:00:00Z", .fin 1767225600000⟩ }

/-- A certificate differing from `certA` in every field the hash is not
supposed to cover (display name, commit, account date, stored hash,
certificate number, issuance time, version). -/
def certB : Certificate :=
  { version := "9.9", type := "LASTGEN_CERTIFICATE"
    identity := { username := "alice", githubId := 1, name := some "Alice Example" }
    proof :=
      { accountCreated := ⟨"2021-05-05T00:00:00Z", .fin 1620172800000⟩
        firstCommit := sampleCommitDrift
        proofDate := ⟨"2019-06-01T00:00:00Z", .fin 1559347200000⟩ }
    era := .LAST_GEN
    verification := { hash := "sha256:zzz", salt := "lastgen_v1" }
    certificateNumber := "LGC-ZZZZ-999999"
    issuedAt := ⟨"2027-03-03T00:00:00Z", .fin 1804032000000⟩ }

/-- Parsed JSON that passes `isValidCertificate` although its `identity` is
`null` (`typeof null` is the string `object`). -/
def nullIdentityCert : JSVal := .vobj
  [("type", .vstr "LASTGEN_CERTIFICATE"), ("version", .vstr "1.0"),
   ("identity", .vnull), ("proof", .vobj []), ("verification", .vobj []),
   ("certificateNumber", .vstr "LGC-0000-000000")]

/-! ### Helper lemmas -/

/-- Replacing a pattern inside the string that starts with that very pattern
removes exactly the leading occurrence. -/
theorem replaceFirstL_cancel (p s r : List Char) :
    replaceFirstL (p ++ s) p r = r ++ s := by
  cases h : p ++ s with
  | nil =>
    obtain ⟨hp, hs⟩ := List.append_eq_nil.mp h
    subst hp; subst hs
    simp [replaceFirstL]
  | cons c rest =>
    have hpre : p.isPrefixOf (c :: rest) = true := by
      rw [← h]
      exact List.isPrefixOf_iff_prefix.mpr (List.prefix_append p s)
    rw [replaceFirstL, if_pos hpre, ← h, List.drop_left]

/-- The empty string is a left identity of append. -/
theorem string_nil_append (s : String) : "" ++ s = s := by
  cases s
  rfl

/-- String-level version of `replaceFirstL_cancel`. -/
theorem replaceFirst_cancel (p s r : String) : replaceFirst (p ++ s) p r = r ++ s := by
  cases p with
  | mk pd =>
    cases s with
    | mk sd =>
      cases r with
      | mk rd =>
        show String.mk (replaceFirstL (pd ++ sd) pd rd) = String.mk (rd ++ sd)
        rw [replaceFirstL_cancel]

/-! ### Claim theorems -/

/-- Claim C1: for every user and non-null first commit whose `repoCreatedAt`
is present (truthy) and whose dates are parseable, `resolveProofDate` returns
`repoCreatedAt` when the effective commit date is strictly earlier than the
repository creation date, and otherwise the earlier of the effective commit
date and the account creation date (the account date when the two coincide). -/
theorem resolveProofDate_repo_present
    (now : DateStr) (user : GitHubUser) (fc : FirstCommit) (r : DateStr)
    (et act rt : Int)
    (hrepo : fc.repoCreatedAt = some r) (hne : r.raw ≠ "")
    (heff : (getEffectiveCommitDate fc).time = .fin et)
    (hacc : user.createdAt.time = .fin act)
    (hrt : r.time = .fin rt) :
    resolveProofDate now user (some fc) =
      (if et < rt then r
       else if et < act then getEffectiveCommitDate fc else user.createdAt) ∧
    (¬ et < rt →
      (resolveProofDate now user (some fc)).time = .fin (min et act)) := by
  have hmain : resolveProofDate now user (some fc) =
      (if et < rt then r
       else if et < act then getEffectiveCommitDate fc else user.createdAt) := by
    simp only [resolveProofDate, hrepo, heff, hacc, hrt, Option.getD_some, if_neg hne]
    by_cases h1 : et < rt
    · simp [jsLt, h1]
    · by_cases h2 : et < act
      · simp [jsLt, h1, h2]
      · simp [jsLt, h1, h2]
  refine ⟨hmain, fun hge => ?_⟩
  rw [hmain, if_neg hge]
  by_cases h2 : et < act
  · rw [if_pos h2, heff]
    congr 1
    exact (min_eq_left h2.le).symm
  · rw [if_neg h2, hacc]
    congr 1
    exact (min_eq_right (le_of_not_lt h2)).symm

/-- Witness for C1 at the resolver example of the specification: commit 2019-06-01
in a repo created 2019-01-01, account created 2020-01-01; the effective commit
date does not predate the repo, is earlier than the account date, and is
returned. -/
theorem resolveProofDate_repo_present_witness :
    resolveProofDate sampleNow sampleUser (some sampleCommitWithRepo) =
      (if (1559347200000 : Int) < 1546300800000 then sampleRepoDate
       else if (1559347200000 : Int) < 1577836800000 then
         getEffectiveCommitDate sampleCommitWithRepo
       else sampleUser.createdAt) ∧
    (resolveProofDate sampleNow sampleUser (some sampleCommitWithRepo)).time =
      .fin (min 1559347200000 1577836800000) :=
  ⟨(resolveProofDate_repo_present sampleNow sampleUser sampleCommitWithRepo sampleRepoDate
      1559347200000 1577836800000 1546300800000 rfl (by decide) rfl rfl rfl).1,
   (resolveProofDate_repo_present sampleNow sampleUser sampleCommitWithRepo sampleRepoDate
      1559347200000 1577836800000 1546300800000 rfl (by decide) rfl rfl rfl).2 (by decide)⟩

/-- Claim C2 (code bug): when `repoCreatedAt` is absent, `repoTime` is
`Infinity`, so `commitTime < repoTime` is true for every parseable commit and
`resolveProofDate` returns the account creation date — here although the
effective commit date (2019-06-01) is strictly earlier than the account date
(2020-01-01), so the "earlier of effective commit date and account creation
date" demanded by the claim would be the commit date. -/
theorem resolveProofDate_missing_repo_returns_account :
    resolveProofDate sampleNow sampleUser (some sampleCommitNoRepo) = sampleUser.createdAt ∧
    (resolveProofDate sampleNow sampleUser (some sampleCommitNoRepo)).raw =
      "2020-01-01T00:00:00Z" ∧
    jsLt (getEffectiveCommitDate sampleCommitNoRepo).time sampleUser.createdAt.time = true ∧
    (getEffectiveCommitDate sampleCommitNoRepo).raw = "2019-06-01T00:00:00Z" := by
  decide

/-- Claim C3: the effective commit date is the committer date exactly when a
committer date exists (truthy) and the signed difference committer − author
exceeds 30 days; in every other case it is the author date. -/
theorem getEffectiveCommitDate_drift_rule
    (fc : FirstCommit) (cd : DateStr) (ct a : Int)
    (hcd : fc.committerDate = some cd) (hne : cd.raw ≠ "")
    (hct : cd.time = .fin ct) (hat : fc.date.time = .fin a) :
    (THIRTY_DAYS_MS < ct - a → getEffectiveCommitDate fc = cd) ∧
    (ct - a ≤ THIRTY_DAYS_MS → getEffectiveCommitDate fc = fc.date) ∧
    (∀ g : FirstCommit, g.committerDate = none → getEffectiveCommitDate g = g.date) := by
  refine ⟨?_, ?_, ?_⟩
  · intro hgt
    simp only [getEffectiveCommitDate, hcd, if_neg hne, hct, hat, jsSubGt]
    simp [hgt]
  · intro hle
    simp only [getEffectiveCommitDate, hcd, if_neg hne, hct, hat, jsSubGt]
    simp [not_lt.mpr hle]
  · intro g hg
    simp [getEffectiveCommitDate, hg]

/-- Witness for C3 at the forgery case of the specification: author 2015-01-01,
committer 2024-06-01, drift far beyond 30 days, so the committer date is
substituted. -/
theorem getEffectiveCommitDate_drift_rule_witness :
    getEffectiveCommitDate sampleCommitDrift = sampleDriftCommitter :=
  (getEffectiveCommitDate_drift_rule sampleCommitDrift sampleDriftCommitter
    1717200000000 1420070400000 rfl (by decide) rfl rfl).1 (by decide)

/-- Claim C4: for a parseable proof date, `classifyEra` is `LAST_GEN` exactly
when the date is strictly before the cutoff `2025-02-21T00:00:00Z` (epoch
1740096000000) and `AI_NATIVE` otherwise; one millisecond before the cutoff is
`LAST_GEN` and the cutoff instant itself is `AI_NATIVE`. -/
theorem classifyEra_cutoff_boundary (d : DateStr) (t : Int) (ht : d.time = .fin t) :
    (classifyEra d = .LAST_GEN ↔ t < 1740096000000) ∧
    (classifyEra d = .AI_NATIVE ↔ ¬ t < 1740096000000) ∧
    classifyEra ⟨"2025-02-20T23:59:59.999Z", .fin 1740095999999⟩ = .LAST_GEN ∧
    classifyEra CUTOFF_DATE = .AI_NATIVE := by
  refine ⟨?_, ?_, by decide, by decide⟩
  · simp only [classifyEra, CUTOFF_DATE, ht, jsLt]
    by_cases h : t < 1740096000000 <;> simp [h]
  · simp only [classifyEra, CUTOFF_DATE, ht, jsLt]
    by_cases h : t < 1740096000000 <;> simp [h]

/-- Witness for C4 at the boundary instants themselves. -/
theorem classifyEra_cutoff_boundary_witness :
    classifyEra ⟨"2025-02-20T23:59:59.999Z", .fin 1740095999999⟩ = .LAST_GEN ∧
    classifyEra CUTOFF_DATE = .AI_NATIVE :=
  ⟨(classifyEra_cutoff_boundary ⟨"2025-02-20T23:59:59.999Z", .fin 1740095999999⟩
      1740095999999 rfl).1.mpr (by decide),
   (classifyEra_cutoff_boundary CUTOFF_DATE 1740096000000 rfl).2.1.mpr (by decide)⟩

/-- Claim C5: every certificate produced by `createCertificate` stores
`sha256:` followed by exactly the hash that `generateCertificateHash`
recomputes from the stored `identity.username`,
`identity.githubId`, `proof.proofDate` and `era`; consequently the
`Hash integrity` check passes on an untampered certificate, whatever the
injected hash function, user, commit and verification-time inputs are. -/
theorem createCertificate_hash_roundTrip (hashFn : HashFn) (now nowV : DateStr)
    (user : GitHubUser) (fc : Option FirstCommit)
    (fetchResult : Except String CommitDetail) :
    (createCertificate hashFn now user fc).verification.hash =
      "sha256:" ++ generateCertificateHash hashFn
        (createCertificate hashFn now user fc).identity.username
        (createCertificate hashFn now user fc).identity.githubId
        (createCertificate hashFn now user fc).proof.proofDate.raw
        (createCertificate hashFn now user fc).era ∧
    (verifyCertificateData hashFn nowV fetchResult
        (createCertificate hashFn now user fc)).results[0]? =
      some { check := "Hash integrity", passed := true
             detail := "Certificate hash is valid" } := by
  constructor
  · rfl
  · have h1 : (createCertificate hashFn now user fc).verification.hash =
        "sha256:" ++ certExpectedHash hashFn (createCertificate hashFn now user fc) := rfl
    show some (hashCheck hashFn (createCertificate hashFn now user fc)) = _
    simp [hashCheck, h1, replaceFirst_cancel, string_nil_append]

/-- Claim C6: the certificate hash recomputation depends only on
`(username, githubId, proofDate, era)` (the salt is the fixed constant):
certificates agreeing on those fields hash identically regardless of every
other field. -/
theorem certificateHash_core_fields_only (hashFn : HashFn) (c1 c2 : Certificate)
    (hu : c1.identity.username = c2.identity.username)
    (hg : c1.identity.githubId = c2.identity.githubId)
    (hp : c1.proof.proofDate.raw = c2.proof.proofDate.raw)
    (he : c1.era = c2.era) :
    certExpectedHash hashFn c1 = certExpectedHash hashFn c2 := by
  unfold certExpectedHash
  rw [hu, hg, hp, he]

/-- Witness for C6: `certA` and `certB` differ in display name, first commit,
account date, stored hash envelope, certificate number, issuance time and
version, yet hash identically. -/
theorem certificateHash_core_fields_only_witness :
    certA.identity.name ≠ certB.identity.name ∧
    certA.proof.firstCommit ≠ certB.proof.firstCommit ∧
    certA.proof.accountCreated ≠ certB.proof.accountCreated ∧
    certA.issuedAt ≠ certB.issuedAt ∧
    certA.version ≠ certB.version ∧
    certA.certificateNumber ≠ certB.certificateNumber ∧
    certExpectedHash (fun s => s) certA = certExpectedHash (fun s => s) certB :=
  ⟨by decide, by decide, by decide, by decide, by decide, by decide,
   certificateHash_core_fields_only (fun s => s) certA certB rfl rfl rfl rfl⟩

/-- Claim C7: for a certificate whose `proof.firstCommit.sha` is empty, the
result list is exactly the three checks `Hash integrity`, `Era
classification`, `Proof date` in that order, and the outcome is independent of
the Data Source (no commit fetch is consulted). -/
theorem verify_emptySha_three_checks (hashFn : HashFn) (now : DateStr)
    (cert : Certificate) (hsha : cert.proof.firstCommit.sha = "") :
    (∀ fetchResult : Except String CommitDetail,
      (verifyCertificateData hashFn now fetchResult cert).results.map (fun r => r.check) =
        ["Hash integrity", "Era classification", "Proof date"]) ∧
    (∀ f1 f2 : Except String CommitDetail,
      verifyCertificateData hashFn now f1 cert = verifyCertificateData hashFn now f2 cert) := by
  constructor
  · intro fetchResult
    simp [verifyCertificateData, hsha, baseChecks, hashCheck, eraCheck, proofDateCheck]
  · intro f1 f2
    simp [verifyCertificateData, hsha]

/-- Witness for C7 on a no-commit certificate: three checks, and a failing
Data Source gives the same result as a succeeding one. -/
theorem verify_emptySha_three_checks_witness :
    (verifyCertificateData (fun s => s) sampleNow (.error "network down")
        certEmptySha).results.map (fun r => r.check) =
      ["Hash integrity", "Era classification", "Proof date"] ∧
    verifyCertificateData (fun s => s) sampleNow (.error "network down") certEmptySha =
      verifyCertificateData (fun s => s) sampleNow (.ok sampleDetail) certEmptySha :=
  ⟨(verify_emptySha_three_checks (fun s => s) sampleNow certEmptySha rfl).1 _,
   (verify_emptySha_three_checks (fun s => s) sampleNow certEmptySha rfl).2 _ _⟩

/-- Claim C8: with a non-empty `sha` and a failing commit fetch, the result is
the three base checks unchanged plus exactly one further check named
`Commit verification`, failed, carrying the error message, and none of the
step-4 sub-checks appear. -/
theorem verify_fetchFailure_single_check (hashFn : HashFn) (now : DateStr)
    (cert : Certificate) (e : String) (hsha : cert.proof.firstCommit.sha ≠ "") :
    (verifyCertificateData hashFn now (.error e) cert).results =
      baseChecks hashFn now cert ++
        [{ check := "Commit verification", passed := false
           detail := "Could not fetch commit from GitHub: " ++ e }] ∧
    (verifyCertificateData hashFn now (.error e) cert).results.map (fun r => r.check) =
      ["Hash integrity", "Era classification", "Proof date", "Commit verification"] ∧
    ∀ r ∈ (verifyCertificateData hashFn now (.error e) cert).results,
      r.check ∉ (["Identity", "Repo ownership", "GitHub ID", "Commit date",
        "Date consistency", "Root commit", "GPG signature"] : List String) := by
  have hres : (verifyCertificateData hashFn now (.error e) cert).results =
      baseChecks hashFn now cert ++
        [{ check := "Commit verification", passed := false
           detail := "Could not fetch commit from GitHub: " ++ e }] := by
    simp [verifyCertificateData, hsha, commitFetchFailure]
  refine ⟨hres, ?_, ?_⟩
  · rw [hres]
    simp [baseChecks, hashCheck, eraCheck, proofDateCheck]
  · rw [hres]
    intro r hr
    simp only [baseChecks, List.mem_append, List.mem_cons, List.not_mem_nil, or_false] at hr
    rcases hr with (h | h | h) | h <;> subst h <;>
      simp [hashCheck, eraCheck, proofDateCheck]

/-- Witness for C8 on a certificate with commit evidence and a network
failure. -/
theorem verify_fetchFailure_single_check_witness :
    (verifyCertificateData (fun s => s) sampleNow (.error "boom") certWithSha).results =
      baseChecks (fun s => s) sampleNow certWithSha ++
        [{ check := "Commit verification", passed := false
           detail := "Could not fetch commit from GitHub: " ++ "boom" }] ∧
    (verifyCertificateData (fun s => s) sampleNow (.error "boom") certWithSha).results.map
        (fun r => r.check) =
      ["Hash integrity", "Era classification", "Proof date", "Commit verification"] :=
  ⟨(verify_fetchFailure_single_check (fun s => s) sampleNow certWithSha "boom" (by decide)).1,
   (verify_fetchFailure_single_check (fun s => s) sampleNow certWithSha "boom" (by decide)).2.1⟩

/-- Claim C9 (code bug): `isValidCertificate` accepts parsed JSON whose
`identity` is `null` (because `typeof null` is the string `object`), and on such input
`verifyCertificateData` throws a `TypeError` at its very first property read
`cert.identity.username`, before any check is produced — contradicting the
claim that shape-checked input never raises. -/
theorem isValidCertificate_null_identity_throws :
    isValidCertificate nullIdentityCert = true ∧
    verifyChecks123Dyn (fun _ => .nan) (fun s => s) "2026-02-19T00:00:00.000Z"
        nullIdentityCert =
      .error "TypeError: Cannot read properties of null (reading username)" :=
  ⟨rfl, rfl⟩

/-- Claim C10: for a certificate with empty `sha`, the `Proof date` check
re-runs the resolver with no commit signal, which returns the current instant,
so the check passes exactly when the verification clock is within 60 seconds
of the stored proof date. -/
theorem proofDate_check_no_commit (hashFn : HashFn) (now : DateStr)
    (fetchResult : Except String CommitDetail) (cert : Certificate)
    (hsha : cert.proof.firstCommit.sha = "") (n p : Int)
    (hn : now.time = .fin n) (hp : cert.proof.proofDate.time = .fin p) :
    (∀ user : GitHubUser, resolveProofDate now user none = now) ∧
    ((verifyCertificateData hashFn now fetchResult cert).results[2]?).map
      (fun r => r.check) = some "Proof date" ∧
    (((verifyCertificateData hashFn now fetchResult cert).results[2]?).map
      (fun r => r.passed) = some true ↔ |n - p| < 60000) := by
  have hres : (verifyCertificateData hashFn now fetchResult cert).results[2]? =
      some (proofDateCheck now cert) := by
    simp [verifyCertificateData, hsha, baseChecks]
  refine ⟨fun u => rfl, ?_, ?_⟩
  · rw [hres]
    rfl
  · rw [hres]
    simp [proofDateCheck, resolveProofDate, hsha, hn, hp, jsAbsSubLt]

/-- Witness for C10: a freshly issued no-commit certificate verified at the
same instant passes the `Proof date` check (clock difference 0 ms). -/
theorem proofDate_check_no_commit_witness :
    resolveProofDate sampleNow sampleUser none = sampleNow ∧
    (((verifyCertificateData (fun s => s) sampleNow (.error "x")
        certEmptySha).results[2]?).map (fun r => r.passed) = some true ↔
      |(1767225600000 : Int) - 1767225600000| < 60000) :=
  ⟨(proofDate_check_no_commit (fun s => s) sampleNow (.error "x") certEmptySha rfl
      1767225600000 1767225600000 rfl rfl).1 sampleUser,
   (proofDate_check_no_commit (fun s => s) sampleNow (.error "x") certEmptySha rfl
      1767225600000 1767225600000 rfl rfl).2.2⟩

end Lastgen
